import Mathlib

/-!
Verification of the conceal-faucet-api session / anti-abuse core.

Shallow embedding of:
  * `src/middleware/sessionToken.js` (createSession, verifySessionToken,
    deleteSession, deleteSessionsForAddress) — Redis modelled as association
    lists keyed by strings; `setEx` keeps the TTL next to the value.
  * `src/middleware/originValidation.js` (getAllowedOrigins,
    requireTrustedOrigin).
  * `src/routes/faucet.js` (`GET /start-game` handler, `POST /claim` handler
    and its middleware chain).
  * `src/middleware/antiAbuse.js` and `src/middleware/rateLimit.js` are not
    part of the published sources; the definitions standing in for them are
    modelled from the design spec and marked as such.

Randomness (`crypto.randomBytes`), the clock (`Date.now()`) and the two
external wallet calls (`getBalance`, `sendTransaction`) are inputs of the
embedded functions.  JavaScript falsiness of strings (absent / empty) is
modelled explicitly.
-/

namespace Faucet

/-- Association-list lookup, first binding wins (models a Redis `GET`). -/
def kvGet {α : Type} (l : List (String × α)) (k : String) : Option α :=
  match l with
  | [] => none
  | (k', v) :: rest => if k' = k then some v else kvGet rest k

/-- Association-list update/insert (models a Redis `SET`/`SETEX`). -/
def kvSet {α : Type} (l : List (String × α)) (k : String) (v : α) :
    List (String × α) :=
  match l with
  | [] => [(k, v)]
  | (k', v') :: rest =>
    if k' = k then (k, v) :: rest else (k', v') :: kvSet rest k v

/-- Association-list removal of every binding of a key (models `DEL`). -/
def kvDel {α : Type} (l : List (String × α)) (k : String) :
    List (String × α) :=
  match l with
  | [] => []
  | (k', v') :: rest =>
    if k' = k then kvDel rest k else (k', v') :: kvDel rest k

/-- JavaScript falsiness of an optional string: absent or empty. -/
def strFalsy : Option String → Bool
  | none => true
  | some s => s == ""

/-- JavaScript `s.startsWith(p)`, computed on the character list (structurally
recursive, unlike core `String.startsWith`, so that concrete witnesses
evaluate). -/
def strStartsWith (s p : String) : Bool :=
  s.data.take p.data.length == p.data

/-- Split a character list at every comma (the list-level body of
JavaScript `s.split(",")`). -/
def splitOnComma : List Char → List (List Char)
  | [] => [[]]
  | c :: rest =>
    let r := splitOnComma rest
    if c == ',' then [] :: r
    else
      match r with
      | [] => [[c]]
      | h :: t => (c :: h) :: t

/-- JavaScript `String.prototype.trim` on a character list: strip leading
and trailing whitespace. -/
def trimChars (l : List Char) : List Char :=
  (((l.dropWhile fun c => c.isWhitespace).reverse.dropWhile
    fun c => c.isWhitespace).reverse)

/-- The session record stored under `session:${token}`
(`src/middleware/sessionToken.js`, `createSession`). -/
structure StoredSession where
  ip : String
  address : String
  origin : Option String
  startedAt : Nat
  csrfToken : String
deriving DecidableEq, Repr

/-- The shared Redis state used by the faucet: session records, the
address→token index, the two cooldown keyspaces and the rate-limit
counters.  Each entry carries the TTL/expiry metadata that `SETEX` attaches. -/
structure Store where
  sessions : List (String × StoredSession × Nat)
  addrIndex : List (String × String × Nat)
  cooldownIP : List (String × Nat)
  cooldownAddr : List (String × Nat)
  rate : List (String × Nat)
deriving DecidableEq, Repr

/-- A structured abuse-log line (`logSecurityEvent`). -/
structure LogEvent where
  kind : String
  ip : String
  reason : String
deriving DecidableEq, Repr

/-- Server configuration read from the environment. -/
structure Config where
  production : Bool
  frontendDomain : Option String
  sessionTtlMs : Nat
  minSessionTimeMs : Nat
  minScore : Int
  faucetAmount : Nat
  faucetMinBalance : Nat
  rateLimitMax : Nat
  cooldownMs : Nat
deriving Repr

/-- An incoming HTTP request, with the client IP already resolved
(`getClientIP` is treated as the identity-resolver leaf). -/
structure Req where
  method : String
  clientIP : String
  originHeader : Option String
  cookieToken : Option String
  csrfHeader : Option String
  queryAddress : Option String
  bodyAddress : Option String
  bodyScore : Option Int
deriving Repr

/-- Model of `deleteSessionsForAddress` (`sessionToken.js`): look the address up in the
index and, when a token is found, delete both the session record and the
index entry. -/
def deleteSessionsForAddress (store : Store) (address : String) : Store :=
  match kvGet store.addrIndex address with
  | none => store
  | some (oldToken, _) =>
    { store with
        sessions := kvDel store.sessions oldToken
        addrIndex := kvDel store.addrIndex address }

/-- Model of `createSession(ip, address, origin)` (`sessionToken.js`): supersede any
session for the address, then write the session record and the address-index
entry with the same TTL.  The two fresh random tokens and the current time
are inputs. -/
def createSession (cfg : Config) (store : Store) (ip address : String)
    (origin : Option String) (now : Nat) (token csrfToken : String) :
    String × String × Store :=
  let store1 := deleteSessionsForAddress store address
  let data : StoredSession :=
    { ip := ip, address := address, origin := origin,
      startedAt := now, csrfToken := csrfToken }
  let ttlSeconds := cfg.sessionTtlMs / 1000
  (token, csrfToken,
    { store1 with
        sessions := kvSet store1.sessions token (data, ttlSeconds)
        addrIndex := kvSet store1.addrIndex address (token, ttlSeconds) })

/-- Model of `deleteSession(token)` (`sessionToken.js`): read the session to recover
its address, then delete both keys; a missing session is a no-op.  (The
JSON-parse-failure fallback branch is unreachable here because the store
holds structured records.) -/
def deleteSession (store : Store) (token : String) : Store :=
  match kvGet store.sessions token with
  | none => store
  | some (sess, _) =>
    { store with
        sessions := kvDel store.sessions token
        addrIndex := kvDel store.addrIndex sess.address }

/-- Outcome of the `verifySessionToken` middleware: either an HTTP rejection
(with the abuse-log lines it emitted) or the attached session context. -/
inductive VerifyResult where
  | reject (status : Nat) (msg : String) (log : List LogEvent)
  | ok (token : String) (sess : StoredSession)
deriving DecidableEq, Repr

/-- The CSRF rejection condition of `verifySessionToken`: only enforced when
`NODE_ENV === "production"`; fails when the header is falsy, the stored
token is falsy, or the two differ. -/
def csrfRejected (cfg : Config) (req : Req) (session : StoredSession) : Bool :=
  cfg.production &&
    (strFalsy req.csrfHeader || session.csrfToken == "" ||
      req.csrfHeader != some session.csrfToken)

/-- The dwell-time rejection condition of `verifySessionToken`:
`Date.now() - session.startedAt < MIN_SESSION_TIME_MS`. -/
def dwellTooQuick (cfg : Config) (session : StoredSession) (now : Nat) :
    Bool :=
  decide ((now : Int) - (session.startedAt : Int) <
    (cfg.minSessionTimeMs : Int))

/-- The origin rejection condition of `verifySessionToken`: in production the
session origin and request origin must both be present and equal; in
development a mismatch is only rejected when both are present. -/
def originRejected (cfg : Config) (req : Req) (session : StoredSession) :
    Bool :=
  if cfg.production then
    strFalsy session.origin || strFalsy req.originHeader ||
      req.originHeader != session.origin
  else
    !strFalsy session.origin && !strFalsy req.originHeader &&
      req.originHeader != session.origin

/-- Model of `verifySessionToken` (`sessionToken.js`): presence, existence, CSRF (in
production), minimum dwell time, IP match, origin match, in source order. -/
def verifySessionToken (cfg : Config) (store : Store) (req : Req)
    (now : Nat) : VerifyResult :=
  match req.cookieToken with
  | none => .reject 401 "Missing session token" []
  | some token =>
    if token = "" then .reject 401 "Missing session token" []
    else
      match kvGet store.sessions token with
      | none => .reject 403 "Invalid or expired session token" []
      | some (session, _) =>
        if csrfRejected cfg req session then
          .reject 403 "Invalid request"
            [{ kind := "ABUSE", ip := req.clientIP, reason := "CSRF" }]
        else if dwellTooQuick cfg session now then
          .reject 400 "Session completed too quickly" []
        else if session.ip ≠ req.clientIP then
          .reject 403 "IP mismatch" []
        else if originRejected cfg req session then
          .reject 403 "Invalid request"
            [{ kind := "ABUSE", ip := req.clientIP,
               reason := "Origin Mismatch" }]
        else .ok token session

/-- Result of an Express middleware guard: pass control on, or answer with
an HTTP rejection (plus abuse-log lines). -/
inductive GuardResult where
  | next
  | reject (status : Nat) (msg : String) (log : List LogEvent)
deriving DecidableEq, Repr

/-- Model of `getAllowedOrigins` (`originValidation.js`): parse `FRONTEND_DOMAIN` as a
comma-separated list, trimming and dropping blank entries. -/
def getAllowedOrigins (frontendDomain : Option String) : List String :=
  match frontendDomain with
  | none => []
  | some s =>
    (((splitOnComma s.data).map fun d => String.mk (trimChars d)).filter
      fun d => d.length > 0)

/-- Model of `requireTrustedOrigin` (`originValidation.js`): skipped in development
for non-state-changing methods; rejects with 500 when the allow-list is
empty; then requires a present, allow-listed `Origin` header. -/
def requireTrustedOrigin (cfg : Config) (req : Req) : GuardResult :=
  let isStateChanging := ¬ (req.method ∈ ["GET", "HEAD", "OPTIONS"])
  if ¬ cfg.production ∧ ¬ isStateChanging then .next
  else
    let allowedOrigins := getAllowedOrigins cfg.frontendDomain
    if allowedOrigins.length = 0 then
      .reject 500 "Service temporarily unavailable" []
    else if strFalsy req.originHeader then
      .reject 400 "Invalid request"
        [{ kind := "ABUSE", ip := req.clientIP, reason := "Missing Origin" }]
    else
      match req.originHeader with
      | none => .reject 400 "Invalid request"
          [{ kind := "ABUSE", ip := req.clientIP, reason := "Missing Origin" }]
      | some origin =>
        if origin ∈ allowedOrigins then .next
        else
          .reject 403 "Invalid request"
            [{ kind := "ABUSE", ip := req.clientIP, reason := "Bad Origin" }]

/-- Response of `GET /start-game`. -/
inductive StartResp where
  | err (status : Nat) (msg : String)
  | ok (csrfToken : String)
deriving DecidableEq, Repr

/-- The `GET /start-game` route (`routes/faucet.js`): origin guard, then the
local address-format checks (present, `ccx7` prefix, 98 chars), then
`createSession`; the new session token and CSRF token are inputs standing
for the random generator. -/
def startGame (cfg : Config) (store : Store) (req : Req) (now : Nat)
    (token csrf : String) : StartResp × Store :=
  match requireTrustedOrigin cfg req with
  | .reject status msg _ => (.err status msg, store)
  | .next =>
    match req.queryAddress with
    | none => (.err 400 "Invalid CCX address", store)
    | some address =>
      if address = "" then (.err 400 "Invalid CCX address", store)
      else if ¬ strStartsWith address "ccx7" then
        (.err 400 "Invalid CCX address", store)
      else if address.length ≠ 98 then
        (.err 400 "Invalid CCX address", store)
      else
        let origin := if strFalsy req.originHeader then none
                      else req.originHeader
        let (_, csrfToken, store') :=
          createSession cfg store req.clientIP address origin now token csrf
        (.ok csrfToken, store')

/-- Response of `POST /claim`. -/
inductive ClaimResp where
  | err (status : Nat) (msg : String)
  | ok (txHash : String) (amount : ℚ)
deriving DecidableEq, Repr

/-- Observable side effects of one pass through the claim orchestrator, in
execution order. -/
inductive Ev where
  | logAbuse (reason : String)
  | disburseCall
  | cooldownCommit
  | sessionDelete
deriving DecidableEq, Repr

/-- Modelled from the spec: `src/middleware/rateLimit.js` (`claimLimiter`) is
not among the published sources.  Per §4.4 and the README, it keeps a
per-IP attempt counter; an attempt beyond the configured ceiling is
rejected as rate-limited and logged for the external banning tool. -/
def claimLimiter (cfg : Config) (store : Store) (ip : String) :
    Bool × Store × List LogEvent :=
  let newCount := (kvGet store.rate ip).getD 0 + 1
  let store' := { store with rate := kvSet store.rate ip newCount }
  if cfg.rateLimitMax < newCount then
    (false, store',
      [{ kind := "RATE_LIMIT", ip := ip, reason := "Rate limit" }])
  else (true, store', [])

/-- Modelled from the spec: `src/middleware/antiAbuse.js` (`checkCooldown`)
is not among the published sources.  Per §4.4, after the Session Verifier
approves the request it looks up a CooldownRecord for both the request IP
and the claimed address; either being present and unexpired rejects the
claim before the payout step. -/
def cooldownActive (store : Store) (ip address : String) (now : Nat) : Bool :=
  (match kvGet store.cooldownIP ip with
   | some expiry => now < expiry
   | none => false) ||
  (match kvGet store.cooldownAddr address with
   | some expiry => now < expiry
   | none => false)

/-- Modelled from the spec: `src/middleware/antiAbuse.js`
(`setCooldownOnSuccess`) is not among the published sources.  Per §4.4/§4.5,
only after a successful disbursement are both the IP-keyed and the
address-keyed CooldownRecord written, with a fixed expiry window. -/
def commitCooldown (cfg : Config) (store : Store) (ip address : String)
    (now : Nat) : Store :=
  { store with
      cooldownIP := kvSet store.cooldownIP ip (now + cfg.cooldownMs)
      cooldownAddr := kvSet store.cooldownAddr address (now + cfg.cooldownMs) }

/-- The claim handler's address validation (`routes/faucet.js`):
`!address || address !== sessionAddr` rejects. -/
def claimAddrOk (req : Req) (sess : StoredSession) : Bool :=
  match req.bodyAddress with
  | none => false
  | some a => a != "" && a == sess.address

/-- The claim handler's score validation (`routes/faucet.js`):
`!score || score < minScore` rejects. -/
def claimScoreOk (cfg : Config) (req : Req) : Bool :=
  match req.bodyScore with
  | none => false
  | some s => s != 0 && decide (cfg.minScore ≤ s)

/-- The `POST /claim` route handler body (`routes/faucet.js`): address/score
validation, balance floor, the external disbursement, then (per the spec's
orchestration, §4.5) cooldown commit and session deletion.  `balanceRes` and
`txRes` stand for the two external wallet calls; `Except.error m` models a
thrown error whose message is `m`. -/
def claimHandler (cfg : Config) (store : Store) (req : Req)
    (token : String) (sess : StoredSession) (now : Nat)
    (balanceRes : Except String Nat) (txRes : Except String String) :
    ClaimResp × Store × List Ev :=
  if ¬ claimAddrOk req sess then
    (.err 400 "Invalid request", store, [.logAbuse "Validation"])
  else
    if ¬ claimScoreOk cfg req then
      (.err 400 "Invalid request", store, [.logAbuse "Validation"])
    else
      match balanceRes with
      | .error m =>
        (.err 500 (if m = "" then "Payment failed" else m), store, [])
      | .ok bal =>
        if bal < cfg.faucetMinBalance then
          (.err 503 "Not enough funds in Faucet", store, [])
        else
          match txRes with
          | .error m =>
            (.err 500 (if m = "" then "Payment failed" else m), store,
              [.disburseCall])
          | .ok txHash =>
            let store1 := commitCooldown cfg store req.clientIP sess.address now
            let store2 := deleteSession store1 token
            (.ok txHash ((cfg.faucetAmount : ℚ) / 1000000), store2,
              [.disburseCall, .cooldownCommit, .sessionDelete])

/-- The full `POST /claim` middleware chain (`routes/faucet.js`):
`requireTrustedOrigin`, `claimLimiter`, `verifySessionToken`,
`checkCooldown`, then the handler (with `setCooldownOnSuccess` committing
the cooldown after a successful disbursement). -/
def claimPipeline (cfg : Config) (store : Store) (req : Req) (now : Nat)
    (balanceRes : Except String Nat) (txRes : Except String String) :
    ClaimResp × Store × List Ev :=
  match requireTrustedOrigin cfg req with
  | .reject status msg log =>
    (.err status msg, store, log.map (fun e => .logAbuse e.reason))
  | .next =>
    let rl := claimLimiter cfg store req.clientIP
    if ¬ rl.1 then
      (.err 429 "Request not available at this time", rl.2.1, [])
    else
      match verifySessionToken cfg rl.2.1 req now with
      | .reject status msg log =>
        (.err status msg, rl.2.1, log.map (fun e => .logAbuse e.reason))
      | .ok token sess =>
        if cooldownActive rl.2.1 req.clientIP sess.address now then
          (.err 429 "Request not available at this time", rl.2.1,
            [.logAbuse "Cooldown"])
        else
          claimHandler cfg rl.2.1 req token sess now balanceRes txRes

/-! Concrete sample data (the address is the one used by the repository's
local test script). -/

/-- A well-formed 98-character `ccx7...` destination address. -/
def sampleAddr : String :=
  "ccx7Zbm7PjafXKvb3naqpGXzhLtAXesKiR5UXUbfwD9MCf77XdvXf1TX64KdDjcTDb3E7dS6MGE2GKT3w4DuCb8H9dwvWWGuof"

/-- A production configuration with the documented defaults. -/
def sampleCfg : Config :=
  { production := true
    frontendDomain := some "https://f.example"
    sessionTtlMs := 600000
    minSessionTimeMs := 5000
    minScore := 1000
    faucetAmount := 1123456
    faucetMinBalance := 0
    rateLimitMax := 5
    cooldownMs := 86400000 }

/-- The session record created from IP `1.2.3.4` and origin
`https://f.example` at time 0. -/
def sampleSess : StoredSession :=
  { ip := "1.2.3.4", address := sampleAddr,
    origin := some "https://f.example", startedAt := 0,
    csrfToken := "csrf-1" }

/-- A store holding exactly that session under token `tok-1`. -/
def sampleStore : Store :=
  { sessions := [("tok-1", (sampleSess, 600))]
    addrIndex := [(sampleAddr, ("tok-1", 600))]
    cooldownIP := []
    cooldownAddr := []
    rate := [] }

/-- A fully well-formed claim request for that session. -/
def sampleClaimReq : Req :=
  { method := "POST", clientIP := "1.2.3.4",
    originHeader := some "https://f.example",
    cookieToken := some "tok-1", csrfHeader := some "csrf-1",
    queryAddress := none, bodyAddress := some sampleAddr,
    bodyScore := some 1500 }

/-- A claim request that fails the CSRF, dwell-time and IP checks at once
(wrong CSRF header, sent at time 1, from a different IP). -/
def sampleBadReq : Req :=
  { sampleClaimReq with csrfHeader := some "wrong", clientIP := "8.8.8.8" }

/-! ## Basic store lemmas -/

theorem kvGet_kvDel_self {α : Type} (l : List (String × α)) (k : String) :
    kvGet (kvDel l k) k = none := by
  induction l with
  | nil => rfl
  | cons hd tl ih =>
    obtain ⟨k', v'⟩ := hd
    by_cases h : k' = k
    · simpa [kvDel, h] using ih
    · simp [kvDel, h, kvGet, ih]

theorem kvGet_kvDel_ne {α : Type} (l : List (String × α)) (k k' : String)
    (h : k ≠ k') : kvGet (kvDel l k) k' = kvGet l k' := by
  induction l with
  | nil => rfl
  | cons hd tl ih =>
    obtain ⟨k₀, v₀⟩ := hd
    by_cases hk : k₀ = k
    · subst hk
      simp [kvDel, kvGet, h, ih]
    · by_cases hk' : k₀ = k'
      · simp [kvDel, hk, kvGet, hk', Ne.symm h]
      · simp [kvDel, hk, kvGet, hk', ih]

theorem kvGet_kvSet_self {α : Type} (l : List (String × α)) (k : String)
    (v : α) : kvGet (kvSet l k v) k = some v := by
  induction l with
  | nil => simp [kvSet, kvGet]
  | cons hd tl ih =>
    obtain ⟨k', v'⟩ := hd
    by_cases h : k' = k
    · simp [kvSet, h, kvGet]
    · simp [kvSet, h, kvGet, ih]

theorem kvGet_kvSet_ne {α : Type} (l : List (String × α)) (k k' : String)
    (v : α) (h : k ≠ k') : kvGet (kvSet l k v) k' = kvGet l k' := by
  induction l with
  | nil => simp [kvSet, kvGet, h]
  | cons hd tl ih =>
    obtain ⟨k₀, v₀⟩ := hd
    by_cases hk : k₀ = k
    · subst hk
      simp [kvSet, kvGet, h, ih]
    · by_cases hk' : k₀ = k'
      · simp [kvSet, hk, kvGet, hk', Ne.symm h]
      · simp [kvSet, hk, kvGet, hk', ih]

theorem kvDel_kvDel {α : Type} (l : List (String × α)) (k : String) :
    kvDel (kvDel l k) k = kvDel l k := by
  induction l with
  | nil => rfl
  | cons hd tl ih =>
    obtain ⟨k', v'⟩ := hd
    by_cases h : k' = k
    · simp [kvDel, h, ih]
    · simp [kvDel, h, ih]

/-! ## Pipeline helper lemmas -/

/-- The rate limiter mutates only the rate counters. -/
theorem claimLimiter_store (cfg : Config) (store : Store) (ip : String) :
    (claimLimiter cfg store ip).2.1 =
      { store with
          rate := kvSet store.rate ip ((kvGet store.rate ip).getD 0 + 1) } := by
  by_cases hc : cfg.rateLimitMax < (kvGet store.rate ip).getD 0 + 1 <;>
    simp [claimLimiter, hc]

/-- Inversion of a successful session verification: the token was the
(non-falsy) cookie value and the session was read from the store. -/
theorem verify_ok_inv (cfg : Config) (store : Store) (req : Req) (now : Nat)
    (t : String) (s : StoredSession)
    (h : verifySessionToken cfg store req now = .ok t s) :
    req.cookieToken = some t ∧ t ≠ "" ∧
      ∃ ttl, kvGet store.sessions t = some (s, ttl) := by
  cases hc : req.cookieToken with
  | none => simp [verifySessionToken, hc] at h
  | some token =>
    by_cases hne : token = ""
    · simp [verifySessionToken, hc, hne] at h
    · cases hg : kvGet store.sessions token with
      | none => simp [verifySessionToken, hc, hne, hg] at h
      | some p =>
        obtain ⟨session, ttl⟩ := p
        by_cases h1 : csrfRejected cfg req session = true
        · simp [verifySessionToken, hc, hne, hg, h1] at h
        · by_cases h2 : dwellTooQuick cfg session now = true
          · simp [verifySessionToken, hc, hne, hg, h1, h2] at h
          · by_cases h3 : session.ip = req.clientIP
            · by_cases h4 : originRejected cfg req session = true
              · simp [verifySessionToken, hc, hne, hg, h1, h2, h3, h4] at h
              · simp [verifySessionToken, hc, hne, hg, h1, h2, h3, h4] at h
                obtain ⟨rfl, rfl⟩ := h
                exact ⟨rfl, hne, ttl, hg⟩
            · simp [verifySessionToken, hc, hne, hg, h1, h2, h3] at h

/-- Inversion of a successful run of the claim handler: the disbursement
result is the reported hash, the amount is the configured payout scaled to
coin units, and the final store is the cooldown commit followed by the
session deletion, in that order, with exactly those three effects traced. -/
theorem claimHandler_ok (cfg : Config) (store : Store) (req : Req)
    (token : String) (sess : StoredSession) (now : Nat)
    (b : Except String Nat) (tx : Except String String)
    (txh : String) (amt : ℚ)
    (h : (claimHandler cfg store req token sess now b tx).1 = .ok txh amt) :
    tx = .ok txh ∧ amt = (cfg.faucetAmount : ℚ) / 1000000 ∧
    (claimHandler cfg store req token sess now b tx).2.1 =
      deleteSession (commitCooldown cfg store req.clientIP sess.address now)
        token ∧
    (claimHandler cfg store req token sess now b tx).2.2 =
      [.disburseCall, .cooldownCommit, .sessionDelete] := by
  by_cases h1 : claimAddrOk req sess = true
  · by_cases h2 : claimScoreOk cfg req = true
    · cases hb : b with
      | error m => simp [claimHandler, h1, h2, hb] at h
      | ok bal =>
        by_cases h3 : bal < cfg.faucetMinBalance
        · simp [claimHandler, h1, h2, hb, h3] at h
        · cases htx : tx with
          | error m => simp [claimHandler, h1, h2, hb, h3, htx] at h
          | ok txh0 =>
            simp [claimHandler, h1, h2, hb, h3, htx] at h
            obtain ⟨rfl, rfl⟩ := h
            refine ⟨rfl, rfl, ?_, ?_⟩ <;>
              simp [claimHandler, h1, h2, hb, h3, htx]
    · simp [claimHandler, h1, h2] at h
  · simp [claimHandler, h1] at h

/-- Behaviour of `deleteSession` on a token whose record exists. -/
theorem deleteSession_some (store : Store) (tok : String)
    (sess : StoredSession) (ttl : Nat)
    (h : kvGet store.sessions tok = some (sess, ttl)) :
    deleteSession store tok =
      { store with
          sessions := kvDel store.sessions tok
          addrIndex := kvDel store.addrIndex sess.address } := by
  simp [deleteSession, h]

/-- A failed run of the claim handler mutates nothing and never traces a
cooldown commit or a session deletion. -/
theorem claimHandler_err (cfg : Config) (store : Store) (req : Req)
    (token : String) (sess : StoredSession) (now : Nat)
    (b : Except String Nat) (tx : Except String String)
    (st : Nat) (m : String)
    (h : (claimHandler cfg store req token sess now b tx).1 = .err st m) :
    (claimHandler cfg store req token sess now b tx).2.1 = store ∧
    Ev.cooldownCommit ∉ (claimHandler cfg store req token sess now b tx).2.2 ∧
    Ev.sessionDelete ∉ (claimHandler cfg store req token sess now b tx).2.2 := by
  by_cases h1 : claimAddrOk req sess = true
  · by_cases h2 : claimScoreOk cfg req = true
    · cases hb : b with
      | error bm => simp [claimHandler, h1, h2, hb]
      | ok bal =>
        by_cases h3 : bal < cfg.faucetMinBalance
        · simp [claimHandler, h1, h2, hb, h3]
        · cases htx : tx with
          | error tm => simp [claimHandler, h1, h2, hb, h3, htx]
          | ok txh0 => simp [claimHandler, h1, h2, hb, h3, htx] at h
    · simp [claimHandler, h1, h2]
  · simp [claimHandler, h1]

/-- Master case analysis of one pass through the claim pipeline: either the
claim fully succeeds — then the disbursement hash is reported with the
configured payout, and the store changes are exactly the cooldown commit
and the deletion of the verified session and its index — or an error is
returned with sessions, index and cooldowns untouched and no commit or
deletion traced. -/
theorem claimPipeline_master (cfg : Config) (store : Store) (req : Req)
    (now : Nat) (b : Except String Nat) (tx : Except String String) :
    (∃ tok sess ttl txh,
      req.cookieToken = some tok ∧ tok ≠ "" ∧
      kvGet store.sessions tok = some (sess, ttl) ∧
      tx = .ok txh ∧
      (claimPipeline cfg store req now b tx).1 =
        .ok txh ((cfg.faucetAmount : ℚ) / 1000000) ∧
      (claimPipeline cfg store req now b tx).2.1.sessions =
        kvDel store.sessions tok ∧
      (claimPipeline cfg store req now b tx).2.1.addrIndex =
        kvDel store.addrIndex sess.address ∧
      (claimPipeline cfg store req now b tx).2.2 =
        [.disburseCall, .cooldownCommit, .sessionDelete]) ∨
    ((∃ st m, (claimPipeline cfg store req now b tx).1 = .err st m) ∧
      (claimPipeline cfg store req now b tx).2.1.sessions =
        store.sessions ∧
      (claimPipeline cfg store req now b tx).2.1.addrIndex =
        store.addrIndex ∧
      (claimPipeline cfg store req now b tx).2.1.cooldownIP =
        store.cooldownIP ∧
      (claimPipeline cfg store req now b tx).2.1.cooldownAddr =
        store.cooldownAddr ∧
      Ev.cooldownCommit ∉ (claimPipeline cfg store req now b tx).2.2 ∧
      Ev.sessionDelete ∉ (claimPipeline cfg store req now b tx).2.2) := by
  cases hg : requireTrustedOrigin cfg req with
  | reject s m l =>
    right
    refine ⟨⟨s, m, ?_⟩, ?_, ?_, ?_, ?_, ?_, ?_⟩ <;>
      simp [claimPipeline, hg, List.mem_map]
  | next =>
    by_cases hrl : (claimLimiter cfg store req.clientIP).1 = true
    · cases hv : verifySessionToken cfg
          (claimLimiter cfg store req.clientIP).2.1 req now with
      | reject s m l =>
        right
        refine ⟨⟨s, m, ?_⟩, ?_, ?_, ?_, ?_, ?_, ?_⟩ <;>
          · simp only [claimPipeline, hg, hrl, hv]
            simp [claimLimiter_store, List.mem_map]
      | ok tok sess =>
        by_cases hcd : cooldownActive
            (claimLimiter cfg store req.clientIP).2.1 req.clientIP
            sess.address now = true
        · right
          refine ⟨⟨429, "Request not available at this time", ?_⟩,
              ?_, ?_, ?_, ?_, ?_, ?_⟩ <;>
            · simp only [claimPipeline, hg, hrl, hv, hcd]
              simp [claimLimiter_store]
        · have hpipe : claimPipeline cfg store req now b tx =
              claimHandler cfg (claimLimiter cfg store req.clientIP).2.1
                req tok sess now b tx := by
            simp [claimPipeline, hg, hrl, hv, hcd]
          obtain ⟨htok, hne, ttl, hsess1⟩ :=
            verify_ok_inv cfg (claimLimiter cfg store req.clientIP).2.1
              req now tok sess hv
          have hsess : kvGet store.sessions tok = some (sess, ttl) := by
            rw [claimLimiter_store] at hsess1
            simpa using hsess1
          cases hh : (claimHandler cfg
              (claimLimiter cfg store req.clientIP).2.1
              req tok sess now b tx).1 with
          | err s m =>
            right
            obtain ⟨hst, hc1, hc2⟩ :=
              claimHandler_err cfg
                (claimLimiter cfg store req.clientIP).2.1 req tok sess
                now b tx s m hh
            rw [hpipe, hst]
            refine ⟨⟨s, m, hh⟩, ?_, ?_, ?_, ?_, hc1, hc2⟩ <;>
              simp [claimLimiter_store]
          | ok txh amt =>
            left
            obtain ⟨htx, hamt, hst, htr⟩ :=
              claimHandler_ok cfg
                (claimLimiter cfg store req.clientIP).2.1 req tok sess
                now b tx txh amt hh
            have hcs : kvGet (commitCooldown cfg
                (claimLimiter cfg store req.clientIP).2.1 req.clientIP
                sess.address now).sessions tok = some (sess, ttl) := by
              simpa [commitCooldown, claimLimiter_store] using hsess
            refine ⟨tok, sess, ttl, txh, htok, hne, hsess, htx,
              ?_, ?_, ?_, ?_⟩
            · rw [hpipe, hh, hamt]
            · rw [hpipe, hst, deleteSession_some _ tok sess ttl hcs]
              simp [commitCooldown, claimLimiter_store]
            · rw [hpipe, hst, deleteSession_some _ tok sess ttl hcs]
              simp [commitCooldown, claimLimiter_store]
            · rw [hpipe, htr]
    · right
      refine ⟨⟨429, "Request not available at this time", ?_⟩,
          ?_, ?_, ?_, ?_, ?_, ?_⟩ <;>
        simp [claimPipeline, hg, hrl, claimLimiter_store]

/-! ## C9: deleteSession is idempotent -/

/-- C9: `deleteSession(token)` is idempotent: when a session record exists
for the token it deletes both the session record and its address-index entry
(recovered from the stored session's address); when no record exists it
performs no store mutation; deleting the same token twice leaves the store
in the same state as deleting it once. -/
theorem deleteSession_idempotent (store : Store) (token : String) :
    (kvGet store.sessions token = none →
      deleteSession store token = store) ∧
    (∀ sess ttl, kvGet store.sessions token = some (sess, ttl) →
      deleteSession store token =
        { store with
            sessions := kvDel store.sessions token
            addrIndex := kvDel store.addrIndex sess.address }) ∧
    deleteSession (deleteSession store token) token =
      deleteSession store token := by
  refine ⟨?_, ?_, ?_⟩
  · intro h
    simp [deleteSession, h]
  · intro sess ttl h
    simp [deleteSession, h]
  · cases h : kvGet store.sessions token with
    | none => simp [deleteSession, h]
    | some p =>
      obtain ⟨sess, ttl⟩ := p
      simp [deleteSession, h, kvGet_kvDel_self]

/-- Witness for C9 at the sample store: deleting an absent token is a
no-op, and deleting the live token removes both keys. -/
theorem deleteSession_idempotent_witness :
    deleteSession sampleStore "missing" = sampleStore ∧
    deleteSession sampleStore "tok-1" =
      { sampleStore with
          sessions := kvDel sampleStore.sessions "tok-1"
          addrIndex := kvDel sampleStore.addrIndex sampleSess.address } :=
  ⟨(deleteSession_idempotent sampleStore "missing").1 rfl,
   (deleteSession_idempotent sampleStore "tok-1").2.1 sampleSess 600 rfl⟩

/-! ## C4: createSession unconditionally supersedes -/

/-- C4: `createSession(ip, address, origin)` always supersedes: it deletes
the indexed old session and the old index entry when one exists, then
writes a new session record and a new index entry with identical TTLs; it
returns the fresh tokens unconditionally, and a previously indexed token
for the same address no longer resolves to a session. -/
theorem createSession_supersedes (cfg : Config) (store : Store)
    (ip address : String) (origin : Option String) (now : Nat)
    (token csrf : String) :
    (createSession cfg store ip address origin now token csrf).1 = token ∧
    (createSession cfg store ip address origin now token csrf).2.1 = csrf ∧
    kvGet (createSession cfg store ip address origin now token
        csrf).2.2.sessions token =
      some ({ ip := ip, address := address, origin := origin,
              startedAt := now, csrfToken := csrf },
            cfg.sessionTtlMs / 1000) ∧
    kvGet (createSession cfg store ip address origin now token
        csrf).2.2.addrIndex address =
      some (token, cfg.sessionTtlMs / 1000) ∧
    (∀ oldTok oldTtl,
      kvGet store.addrIndex address = some (oldTok, oldTtl) →
      oldTok ≠ token →
      kvGet (createSession cfg store ip address origin now token
        csrf).2.2.sessions oldTok = none) := by
  cases h : kvGet store.addrIndex address with
  | none =>
    refine ⟨rfl, rfl, ?_, ?_, ?_⟩
    · simp [createSession, deleteSessionsForAddress, h, kvGet_kvSet_self]
    · simp [createSession, deleteSessionsForAddress, h, kvGet_kvSet_self]
    · intro oldTok oldTtl hold
      exact absurd hold (by simp)
  | some p =>
    obtain ⟨oldTok0, oldTtl0⟩ := p
    refine ⟨rfl, rfl, ?_, ?_, ?_⟩
    · simp [createSession, deleteSessionsForAddress, h, kvGet_kvSet_self]
    · simp [createSession, deleteSessionsForAddress, h, kvGet_kvSet_self]
    · intro oldTok oldTtl hold hne
      obtain ⟨rfl, rfl⟩ : oldTok0 = oldTok ∧ oldTtl0 = oldTtl := by
        simpa using hold
      simp [createSession, deleteSessionsForAddress, h,
        kvGet_kvSet_ne _ _ _ _ (Ne.symm hne), kvGet_kvDel_self]

/-- Witness for C4: superseding the sample session with a fresh token
invalidates the previously issued `tok-1`. -/
theorem createSession_supersedes_witness :
    kvGet (createSession sampleCfg sampleStore "9.9.9.9" sampleAddr
      (some "https://f.example") 50 "tok-2" "csrf-2").2.2.sessions
      "tok-1" = none :=
  (createSession_supersedes sampleCfg sampleStore "9.9.9.9" sampleAddr
    (some "https://f.example") 50 "tok-2" "csrf-2").2.2.2.2 "tok-1" 600
    rfl (by decide)

/-! ## C3: verifier check order -/

/-- C3: the Session Verifier evaluates its checks in exactly this order,
short-circuiting at the first failure: (1) token presence, (2) session
existence, (3) CSRF match (production mode), (4) minimum dwell time,
(5) IP match, (6) origin match; each rejection below is stated with no
assumption on the later checks, and the success case requires all six to
pass and attaches the session context. -/
theorem verifier_check_order (cfg : Config) (store : Store) (req : Req)
    (now : Nat) :
    (strFalsy req.cookieToken = true →
      verifySessionToken cfg store req now =
        .reject 401 "Missing session token" []) ∧
    (∀ token, req.cookieToken = some token → token ≠ "" →
      kvGet store.sessions token = none →
      verifySessionToken cfg store req now =
        .reject 403 "Invalid or expired session token" []) ∧
    (∀ token session ttl, req.cookieToken = some token → token ≠ "" →
      kvGet store.sessions token = some (session, ttl) →
      csrfRejected cfg req session = true →
      verifySessionToken cfg store req now =
        .reject 403 "Invalid request"
          [{ kind := "ABUSE", ip := req.clientIP, reason := "CSRF" }]) ∧
    (∀ token session ttl, req.cookieToken = some token → token ≠ "" →
      kvGet store.sessions token = some (session, ttl) →
      csrfRejected cfg req session = false →
      dwellTooQuick cfg session now = true →
      verifySessionToken cfg store req now =
        .reject 400 "Session completed too quickly" []) ∧
    (∀ token session ttl, req.cookieToken = some token → token ≠ "" →
      kvGet store.sessions token = some (session, ttl) →
      csrfRejected cfg req session = false →
      dwellTooQuick cfg session now = false →
      session.ip ≠ req.clientIP →
      verifySessionToken cfg store req now =
        .reject 403 "IP mismatch" []) ∧
    (∀ token session ttl, req.cookieToken = some token → token ≠ "" →
      kvGet store.sessions token = some (session, ttl) →
      csrfRejected cfg req session = false →
      dwellTooQuick cfg session now = false →
      session.ip = req.clientIP →
      originRejected cfg req session = true →
      verifySessionToken cfg store req now =
        .reject 403 "Invalid request"
          [{ kind := "ABUSE", ip := req.clientIP,
             reason := "Origin Mismatch" }]) ∧
    (∀ token session ttl, req.cookieToken = some token → token ≠ "" →
      kvGet store.sessions token = some (session, ttl) →
      csrfRejected cfg req session = false →
      dwellTooQuick cfg session now = false →
      session.ip = req.clientIP →
      originRejected cfg req session = false →
      verifySessionToken cfg store req now = .ok token session) := by
  refine ⟨?_, ?_, ?_, ?_, ?_, ?_, ?_⟩
  · intro hfalsy
    cases hc : req.cookieToken with
    | none => simp [verifySessionToken, hc]
    | some s =>
      rw [hc] at hfalsy
      simp only [strFalsy, beq_iff_eq] at hfalsy
      simp [verifySessionToken, hc, hfalsy]
  · intro token htok hne hnone
    simp [verifySessionToken, htok, hne, hnone]
  · intro token session ttl htok hne hsess hcsrf
    simp [verifySessionToken, htok, hne, hsess, hcsrf]
  · intro token session ttl htok hne hsess hcsrf hdwell
    simp [verifySessionToken, htok, hne, hsess, hcsrf, hdwell]
  · intro token session ttl htok hne hsess hcsrf hdwell hip
    simp [verifySessionToken, htok, hne, hsess, hcsrf, hdwell, hip]
  · intro token session ttl htok hne hsess hcsrf hdwell hip horig
    simp [verifySessionToken, htok, hne, hsess, hcsrf, hdwell, hip, horig]
  · intro token session ttl htok hne hsess hcsrf hdwell hip horig
    simp [verifySessionToken, htok, hne, hsess, hcsrf, hdwell, hip, horig]

/-- Witness for C3 at concrete inputs: the sample request succeeds, and a
request failing CSRF *and* dwell *and* IP at once is rejected on the CSRF
check alone. -/
theorem verifier_check_order_witness :
    verifySessionToken sampleCfg sampleStore sampleClaimReq 6000 =
      .ok "tok-1" sampleSess ∧
    verifySessionToken sampleCfg sampleStore sampleBadReq 1 =
      .reject 403 "Invalid request"
        [{ kind := "ABUSE", ip := "8.8.8.8", reason := "CSRF" }] :=
  ⟨(verifier_check_order sampleCfg sampleStore sampleClaimReq
      6000).2.2.2.2.2.2 "tok-1" sampleSess 600 rfl (by decide) rfl
      (by decide) (by decide) (by decide) (by decide),
   (verifier_check_order sampleCfg sampleStore sampleBadReq 1).2.2.1
      "tok-1" sampleSess 600 rfl (by decide) rfl (by decide)⟩

/-! ## C6: dwell-time boundary -/

/-- C6: having passed presence, existence and CSRF, a claim whose elapsed
time `now - startedAt` is strictly below the configured minimum dwell time
is rejected with the SessionTooYoung error ("Session completed too
quickly"), while a claim exactly at or above the threshold passes the
dwell-time check (it can never produce that rejection). -/
theorem dwell_time_boundary (cfg : Config) (store : Store) (req : Req)
    (now : Nat) (token : String) (session : StoredSession) (ttl : Nat)
    (htok : req.cookieToken = some token) (hne : token ≠ "")
    (hsess : kvGet store.sessions token = some (session, ttl))
    (hcsrf : csrfRejected cfg req session = false) :
    ((now : Int) - (session.startedAt : Int) < (cfg.minSessionTimeMs : Int) →
      verifySessionToken cfg store req now =
        .reject 400 "Session completed too quickly" []) ∧
    ((cfg.minSessionTimeMs : Int) ≤ (now : Int) - (session.startedAt : Int) →
      verifySessionToken cfg store req now ≠
        .reject 400 "Session completed too quickly" []) := by
  constructor
  · intro hlt
    have hdwell : dwellTooQuick cfg session now = true := by
      simp [dwellTooQuick, hlt]
    simp [verifySessionToken, htok, hne, hsess, hcsrf, hdwell]
  · intro hge
    have hdwell : dwellTooQuick cfg session now = false := by
      simp [dwellTooQuick]
      exact hge
    simp only [verifySessionToken, htok, hne, hsess, hcsrf, hdwell]
    split
    · simp_all
    · simp only [if_neg, Bool.false_eq_true, ↓reduceIte]
      split
      · simp
      · split
        · simp
        · simp

/-- Witness for C6 at the sample session (`startedAt = 0`, minimum 5000):
time 4999 is rejected as too quick, time 5000 passes the dwell check. -/
theorem dwell_time_boundary_witness :
    verifySessionToken sampleCfg sampleStore sampleClaimReq 4999 =
      .reject 400 "Session completed too quickly" [] ∧
    verifySessionToken sampleCfg sampleStore sampleClaimReq 5000 ≠
      .reject 400 "Session completed too quickly" [] :=
  ⟨(dwell_time_boundary sampleCfg sampleStore sampleClaimReq 4999 "tok-1"
      sampleSess 600 rfl (by decide) rfl (by decide)).1 (by decide),
   (dwell_time_boundary sampleCfg sampleStore sampleClaimReq 5000 "tok-1"
      sampleSess 600 rfl (by decide) rfl (by decide)).2 (by decide)⟩

/-! ## C5 (corrected): rejection messages for CSRF / IP / origin -/

/-- A claim request that is valid in every respect except that it comes
from a different client IP than the one that created the session. -/
def sampleWrongIpReq : Req :=
  { sampleClaimReq with clientIP := "5.6.7.8" }

/-- Counterexample to C5 as stated: with a valid token, matching CSRF and
origin, but a different client IP, the verifier answers with the distinct
message "IP mismatch" and writes nothing to the abuse log, whereas a CSRF
mismatch gets the generic "Invalid request" plus an abuse-log line — so the
three mismatches are *not* reported through one generic message, and the IP
detail is *not* logged. -/
theorem mismatch_message_counterexample :
    verifySessionToken sampleCfg sampleStore sampleWrongIpReq 6000 =
      .reject 403 "IP mismatch" [] ∧
    verifySessionToken sampleCfg sampleStore sampleBadReq 6000 =
      .reject 403 "Invalid request"
        [{ kind := "ABUSE", ip := "8.8.8.8", reason := "CSRF" }] ∧
    ("IP mismatch" : String) ≠ "Invalid request" :=
  ⟨rfl, rfl, by decide⟩

/-- C5 amended: a CSRF mismatch and an origin mismatch are each rejected
with the generic message "Invalid request" and a detailed abuse-log line;
an IP mismatch, however, is rejected with the distinct message
"IP mismatch" and no abuse-log write. -/
theorem mismatch_rejection_channels (cfg : Config) (store : Store)
    (req : Req) (now : Nat) (token : String) (session : StoredSession)
    (ttl : Nat)
    (htok : req.cookieToken = some token) (hne : token ≠ "")
    (hsess : kvGet store.sessions token = some (session, ttl)) :
    (csrfRejected cfg req session = true →
      verifySessionToken cfg store req now =
        .reject 403 "Invalid request"
          [{ kind := "ABUSE", ip := req.clientIP, reason := "CSRF" }]) ∧
    (csrfRejected cfg req session = false →
      dwellTooQuick cfg session now = false →
      session.ip ≠ req.clientIP →
      verifySessionToken cfg store req now =
        .reject 403 "IP mismatch" []) ∧
    (csrfRejected cfg req session = false →
      dwellTooQuick cfg session now = false →
      session.ip = req.clientIP →
      originRejected cfg req session = true →
      verifySessionToken cfg store req now =
        .reject 403 "Invalid request"
          [{ kind := "ABUSE", ip := req.clientIP,
             reason := "Origin Mismatch" }]) := by
  refine ⟨?_, ?_, ?_⟩
  · intro hcsrf
    simp [verifySessionToken, htok, hne, hsess, hcsrf]
  · intro hcsrf hdwell hip
    simp [verifySessionToken, htok, hne, hsess, hcsrf, hdwell, hip]
  · intro hcsrf hdwell hip horig
    simp [verifySessionToken, htok, hne, hsess, hcsrf, hdwell, hip, horig]

/-- Witness for the amended C5: the wrong-IP request is rejected with the
distinct unlogged "IP mismatch", the wrong-CSRF request with the generic
logged "Invalid request". -/
theorem mismatch_rejection_channels_witness :
    verifySessionToken sampleCfg sampleStore sampleWrongIpReq 6000 =
      .reject 403 "IP mismatch" [] ∧
    verifySessionToken sampleCfg sampleStore sampleBadReq 6000 =
      .reject 403 "Invalid request"
        [{ kind := "ABUSE", ip := "8.8.8.8", reason := "CSRF" }] :=
  ⟨(mismatch_rejection_channels sampleCfg sampleStore sampleWrongIpReq
      6000 "tok-1" sampleSess 600 rfl (by decide) rfl).2.1 (by decide)
      (by decide) (by decide),
   (mismatch_rejection_channels sampleCfg sampleStore sampleBadReq
      6000 "tok-1" sampleSess 600 rfl (by decide) rfl).1 (by decide)⟩

/-! ## C10 (corrected): origin guard with an empty allow-list -/

/-- A development-mode configuration with `FRONTEND_DOMAIN` unset. -/
def devCfg : Config :=
  { sampleCfg with production := false, frontendDomain := none }

/-- A development-mode session-start request (GET, no Origin header). -/
def devStartReq : Req :=
  { method := "GET", clientIP := "1.2.3.4", originHeader := none,
    cookieToken := none, csrfHeader := none,
    queryAddress := some sampleAddr, bodyAddress := none,
    bodyScore := none }

/-- Counterexample to C10 as stated: with an empty origin allow-list but
`NODE_ENV` not "production", a GET session-start request is not evaluated
against the allow-list at all — the guard passes it through and the
downstream handler runs to session creation. -/
theorem origin_guard_empty_counterexample :
    getAllowedOrigins devCfg.frontendDomain = [] ∧
    requireTrustedOrigin devCfg devStartReq = .next ∧
    (startGame devCfg sampleStore devStartReq 0 "tok-9" "csrf-9").1 =
      .ok "csrf-9" :=
  ⟨rfl, rfl, rfl⟩

/-- C10 amended: with an empty origin allow-list the guard rejects, with a
generic 500 service-unavailable and without examining the Origin header,
every request it evaluates — that is, every request in production mode and
every state-changing (non-GET/HEAD/OPTIONS) request in development mode —
but in development mode GET/HEAD/OPTIONS requests (such as session start)
bypass the guard entirely and do reach the downstream handlers. -/
theorem origin_guard_empty_allowlist (cfg : Config) (req : Req)
    (hempty : getAllowedOrigins cfg.frontendDomain = []) :
    ((cfg.production = true ∨ ¬ req.method ∈ ["GET", "HEAD", "OPTIONS"]) →
      requireTrustedOrigin cfg req =
        .reject 500 "Service temporarily unavailable" []) ∧
    (cfg.production = false → req.method ∈ ["GET", "HEAD", "OPTIONS"] →
      requireTrustedOrigin cfg req = .next) := by
  constructor
  · intro h
    have hcond :
        ¬ (¬ cfg.production = true ∧
           ¬ ¬ req.method ∈ ["GET", "HEAD", "OPTIONS"]) := by
      rcases h with h | h
      · simp [h]
      · tauto
    simp only [requireTrustedOrigin]
    rw [if_neg hcond, if_pos (by simp [hempty])]
  · intro hprod hmem
    simp [requireTrustedOrigin, hprod, hmem]

/-- Witness for the amended C10: in production the empty allow-list turns
the same GET request away with the 500, while in development it passes. -/
theorem origin_guard_empty_allowlist_witness :
    requireTrustedOrigin { devCfg with production := true } devStartReq =
      .reject 500 "Service temporarily unavailable" [] ∧
    requireTrustedOrigin devCfg devStartReq = .next :=
  ⟨(origin_guard_empty_allowlist { devCfg with production := true }
      devStartReq rfl).1 (Or.inl rfl),
   (origin_guard_empty_allowlist devCfg devStartReq rfl).2 rfl
      (by decide)⟩

/-! ## C8: address-format validation at session start -/

/-- C8: past the origin guard, a session-start request whose address is
absent, empty, lacks the "ccx7" prefix or is not exactly 98 characters is
rejected with the invalid-address error and no store write; a well-formed
address proceeds to `createSession`. -/
theorem start_address_validation (cfg : Config) (store : Store) (req : Req)
    (now : Nat) (token csrf : String)
    (hguard : requireTrustedOrigin cfg req = .next) :
    ((∀ a, req.queryAddress = some a → a ≠ "" →
        (strStartsWith a "ccx7" = false ∨ a.length ≠ 98)) →
      startGame cfg store req now token csrf =
        (.err 400 "Invalid CCX address", store)) ∧
    (∀ a, req.queryAddress = some a → strStartsWith a "ccx7" = true →
      a.length = 98 →
      startGame cfg store req now token csrf =
        (.ok csrf,
          (createSession cfg store req.clientIP a
            (if strFalsy req.originHeader then none else req.originHeader)
            now token csrf).2.2)) := by
  constructor
  · intro hbad
    cases hq : req.queryAddress with
    | none => simp [startGame, hguard, hq]
    | some a =>
      by_cases ha : a = ""
      · subst ha
        simp [startGame, hguard, hq]
      · rcases hbad a hq ha with hs | hl
        · simp [startGame, hguard, hq, ha, hs]
        · by_cases hs : strStartsWith a "ccx7" = true
          · simp [startGame, hguard, hq, ha, hs, hl]
          · simp [startGame, hguard, hq, ha, hs]
  · intro a hq hs hl
    have ha : a ≠ "" := by
      intro h
      subst h
      exact absurd hs (by decide)
    simp [startGame, hguard, hq, ha, hs, hl]
    rfl

/-- A production session-start request with a trusted origin and the
well-formed sample address. -/
def sampleStartReq : Req :=
  { method := "GET", clientIP := "1.2.3.4",
    originHeader := some "https://f.example", cookieToken := none,
    csrfHeader := none, queryAddress := some sampleAddr,
    bodyAddress := none, bodyScore := none }

/-- The same request with a malformed (wrong-prefix, wrong-length)
address. -/
def sampleBadAddrReq : Req :=
  { sampleStartReq with queryAddress := some "ccx8xyz" }

/-- Witness for C8: the malformed address is turned away with the store
untouched; the well-formed one creates a session. -/
theorem start_address_validation_witness :
    startGame sampleCfg sampleStore sampleBadAddrReq 0 "tok-9" "csrf-9" =
      (.err 400 "Invalid CCX address", sampleStore) ∧
    startGame sampleCfg sampleStore sampleStartReq 0 "tok-9" "csrf-9" =
      (.ok "csrf-9",
        (createSession sampleCfg sampleStore "1.2.3.4" sampleAddr
          (if strFalsy (some "https://f.example") then none
           else some "https://f.example") 0 "tok-9" "csrf-9").2.2) :=
  ⟨(start_address_validation sampleCfg sampleStore sampleBadAddrReq 0
      "tok-9" "csrf-9" rfl).1
      (by
        intro a ha hne
        have h : a = "ccx8xyz" := by
          simpa [sampleBadAddrReq, sampleStartReq] using ha.symm
        subst h
        exact Or.inl (by decide)),
   (start_address_validation sampleCfg sampleStore sampleStartReq 0
      "tok-9" "csrf-9" rfl).2 sampleAddr rfl (by decide) (by decide)⟩

/-! ## C1: orchestrator effect order and failed disbursement -/

/-- C1: the cooldown commit happens only after the disbursement succeeds,
and the orchestrator's mutating side effects on a successful claim are, in
order: disbursement call, cooldown commit, session deletion.  When the
disbursement call fails, no cooldown is committed, the session is not
deleted, and the error response leaves sessions, address index and both
cooldown keyspaces exactly as they were. -/
theorem claim_orchestrator_effects (cfg : Config) (store : Store)
    (req : Req) (now : Nat) (b : Except String Nat) :
    (∀ m : String,
      (claimPipeline cfg store req now b (.error m)).2.1.sessions =
        store.sessions ∧
      (claimPipeline cfg store req now b (.error m)).2.1.addrIndex =
        store.addrIndex ∧
      (claimPipeline cfg store req now b (.error m)).2.1.cooldownIP =
        store.cooldownIP ∧
      (claimPipeline cfg store req now b (.error m)).2.1.cooldownAddr =
        store.cooldownAddr ∧
      (∀ txh amt,
        (claimPipeline cfg store req now b (.error m)).1 ≠ .ok txh amt) ∧
      Ev.cooldownCommit ∉
        (claimPipeline cfg store req now b (.error m)).2.2 ∧
      Ev.sessionDelete ∉
        (claimPipeline cfg store req now b (.error m)).2.2) ∧
    (∀ (tx : Except String String) txh amt,
      (claimPipeline cfg store req now b tx).1 = .ok txh amt →
      (claimPipeline cfg store req now b tx).2.2 =
        [.disburseCall, .cooldownCommit, .sessionDelete]) := by
  constructor
  · intro m
    rcases claimPipeline_master cfg store req now b (.error m) with
      ⟨tok, sess, ttl, txh, _, _, _, htx, _⟩ |
      ⟨⟨s', m', herr⟩, h1, h2, h3, h4, h5, h6⟩
    · exact absurd htx (by simp)
    · refine ⟨h1, h2, h3, h4, ?_, h5, h6⟩
      intro txh amt hok
      rw [herr] at hok
      exact ClaimResp.noConfusion hok
  · intro tx txh amt hok
    rcases claimPipeline_master cfg store req now b tx with
      ⟨tok, sess, ttl, txh', _, _, _, _, _, _, _, htr⟩ |
      ⟨⟨s', m', herr⟩, _⟩
    · exact htr
    · rw [herr] at hok
      exact ClaimResp.noConfusion hok

/-- Witness for C1: a failed disbursement at the sample claim leaves the
cooldown keyspaces untouched, and the successful one traces exactly
disbursement, cooldown commit, session deletion. -/
theorem claim_orchestrator_effects_witness :
    (claimPipeline sampleCfg sampleStore sampleClaimReq 6000 (.ok 100)
      (.error "tx fail")).2.1.cooldownIP = sampleStore.cooldownIP ∧
    (claimPipeline sampleCfg sampleStore sampleClaimReq 6000 (.ok 100)
      (.ok "abc123")).2.2 =
      [.disburseCall, .cooldownCommit, .sessionDelete] :=
  ⟨((claim_orchestrator_effects sampleCfg sampleStore sampleClaimReq 6000
      (.ok 100)).1 "tx fail").2.2.2.1,
   (claim_orchestrator_effects sampleCfg sampleStore sampleClaimReq 6000
      (.ok 100)).2 (.ok "abc123") "abc123"
      ((sampleCfg.faucetAmount : ℚ) / 1000000) rfl⟩

/-! ## C2: a session token is single-use -/

/-- C2: a session consumed by a successful claim is gone — both the session
record and its address-index entry are deleted — and any later claim
presenting the same token fails the existence check with the
InvalidOrExpiredToken error ("Invalid or expired session token"). -/
theorem session_token_single_use (cfg : Config) (store : Store) (req : Req)
    (now now2 : Nat) (b : Except String Nat) (tx : Except String String)
    (txh : String) (amt : ℚ) (tok : String) (sess : StoredSession)
    (ttl : Nat)
    (htok : req.cookieToken = some tok)
    (hsess : kvGet store.sessions tok = some (sess, ttl))
    (hok : (claimPipeline cfg store req now b tx).1 = .ok txh amt) :
    kvGet (claimPipeline cfg store req now b tx).2.1.sessions tok = none ∧
    kvGet (claimPipeline cfg store req now b tx).2.1.addrIndex
      sess.address = none ∧
    (∀ req2 : Req, req2.cookieToken = some tok →
      verifySessionToken cfg (claimPipeline cfg store req now b tx).2.1
        req2 now2 =
        .reject 403 "Invalid or expired session token" []) := by
  rcases claimPipeline_master cfg store req now b tx with
    ⟨tok', sess', ttl', txh', htok', hne', hsess', htx', hresp', hS, hA,
      htr⟩ |
    ⟨⟨s', m', herr⟩, _⟩
  · rw [htok] at htok'
    obtain rfl : tok = tok' := Option.some.inj htok'
    rw [hsess] at hsess'
    obtain ⟨rfl, rfl⟩ : sess = sess' ∧ ttl = ttl' := by
      simpa [Prod.ext_iff] using Option.some.inj hsess'
    have hlook :
        kvGet (claimPipeline cfg store req now b tx).2.1.sessions tok =
          none := by
      rw [hS]
      exact kvGet_kvDel_self _ _
    refine ⟨hlook, ?_, ?_⟩
    · rw [hA]
      exact kvGet_kvDel_self _ _
    · intro req2 htok2
      simp [verifySessionToken, htok2, hne', hlook]
  · rw [herr] at hok
    exact ClaimResp.noConfusion hok

/-- Witness for C2: after the successful sample claim, replaying the very
same request is rejected at the existence check. -/
theorem session_token_single_use_witness :
    verifySessionToken sampleCfg
      (claimPipeline sampleCfg sampleStore sampleClaimReq 6000 (.ok 100)
        (.ok "abc123")).2.1 sampleClaimReq 7000 =
      .reject 403 "Invalid or expired session token" [] :=
  (session_token_single_use sampleCfg sampleStore sampleClaimReq 6000 7000
    (.ok 100) (.ok "abc123") "abc123"
    ((sampleCfg.faucetAmount : ℚ) / 1000000) "tok-1" sampleSess 600
    rfl rfl rfl).2.2 sampleClaimReq rfl

/-! ## C7: fully successful end-to-end claim -/

/-- C7: a fully successful claim answers with the disburser's transaction
hash and the configured payout amount (in coin units), and afterwards
neither the session record nor its address-index entry is retrievable. -/
theorem claim_success_end_to_end (cfg : Config) (store : Store) (req : Req)
    (now : Nat) (b : Except String Nat) (tx : Except String String)
    (txh : String) (amt : ℚ)
    (hok : (claimPipeline cfg store req now b tx).1 = .ok txh amt) :
    tx = .ok txh ∧ amt = (cfg.faucetAmount : ℚ) / 1000000 ∧
    ∃ tok sess ttl, req.cookieToken = some tok ∧
      kvGet store.sessions tok = some (sess, ttl) ∧
      kvGet (claimPipeline cfg store req now b tx).2.1.sessions tok =
        none ∧
      kvGet (claimPipeline cfg store req now b tx).2.1.addrIndex
        sess.address = none := by
  rcases claimPipeline_master cfg store req now b tx with
    ⟨tok, sess, ttl, txh', htok, hne, hsess, htx, hresp, hS, hA, htr⟩ |
    ⟨⟨s', m', herr⟩, _⟩
  · rw [hok] at hresp
    obtain ⟨rfl, rfl⟩ : txh = txh' ∧
        amt = (cfg.faucetAmount : ℚ) / 1000000 := by
      simpa using hresp
    refine ⟨htx, rfl, tok, sess, ttl, htok, hsess, ?_, ?_⟩
    · rw [hS]
      exact kvGet_kvDel_self _ _
    · rw [hA]
      exact kvGet_kvDel_self _ _
  · rw [herr] at hok
    exact ClaimResp.noConfusion hok

/-- Witness for C7: the end-to-end sample scenario — production config,
98-character `ccx7` address, matching IP/origin/CSRF, dwell time passed,
sufficient score and balance — yields the transaction hash with the
configured amount and leaves the session irretrievable. -/
theorem claim_success_end_to_end_witness :
    (Except.ok "abc123" : Except String String) = .ok "abc123" ∧
    ((sampleCfg.faucetAmount : ℚ) / 1000000) =
      (sampleCfg.faucetAmount : ℚ) / 1000000 ∧
    ∃ tok sess ttl, sampleClaimReq.cookieToken = some tok ∧
      kvGet sampleStore.sessions tok = some (sess, ttl) ∧
      kvGet (claimPipeline sampleCfg sampleStore sampleClaimReq 6000
        (.ok 100) (.ok "abc123")).2.1.sessions tok = none ∧
      kvGet (claimPipeline sampleCfg sampleStore sampleClaimReq 6000
        (.ok 100) (.ok "abc123")).2.1.addrIndex sess.address = none :=
  claim_success_end_to_end sampleCfg sampleStore sampleClaimReq 6000
    (.ok 100) (.ok "abc123") "abc123"
    ((sampleCfg.faucetAmount : ℚ) / 1000000) rfl

end Faucet
